import Mathlib

/-!
Verification of the `GraphQuery` fluent query builder of PolyglotDB
(`src/polyglotdb/graph/query.py`): a shallow embedding of the builder state,
its fluent operations, the discourse-label propagation performed by
`cypher()`, the `annotation_levels` canonicalization, and the terminal
operations (`all`, `count`, `aggregate`, `set_type`, `set_token`, `delete`).

The attribute/annotation object model (`polyglotdb.graph.attributes`), the
clause-element classes (`polyglotdb.graph.elements`) and the statement
compiler (`polyglotdb.graph.cypher`) are collaborators whose sources are not
part of the analyzed tree; the definitions for those carry a doc comment
starting with `Modelled from the spec:` and follow the specification text.
-/

namespace PolyglotDB

/-- Modelled from the spec: an annotation reference (`AnnotationType` /
`AnnotationAttribute`, from the attribute object model, not under src/): a
named node kind with an optional discourse-scoping label and type-level and
token-level subset qualifier labels.  Two values denote the same level iff
type, discourse label and both qualifier lists are equal. -/
structure Anno where
  type : String
  discourse_label : Option String
  subset_type_labels : List String
  subset_token_labels : List String
deriving DecidableEq

/-- Modelled from the spec: `getattr(corpus, name)` (the corpus context's
attribute access, not under src/) yields a fresh base annotation of the named
type with no discourse label and no subset qualifiers. -/
def corpus_getattr (name : String) : Anno :=
  ⟨name, none, [], []⟩

/-- `key.discourse_label = d`: assignment of the discourse label field. -/
def Anno.set_discourse (a : Anno) (d : Option String) : Anno :=
  { a with discourse_label := d }

/-- Modelled from the spec: `subset_type(*labels)` qualifies the annotation
with additional type-level subset labels. -/
def Anno.subset_type (a : Anno) (ls : List String) : Anno :=
  { a with subset_type_labels := a.subset_type_labels ++ ls }

/-- Modelled from the spec: `subset_token(*labels)` qualifies the annotation
with additional token-level subset labels. -/
def Anno.subset_token (a : Anno) (ls : List String) : Anno :=
  { a with subset_token_labels := a.subset_token_labels ++ ls }

/-- Modelled from the spec: an attribute path — owning annotation reference,
property name, optional output-column alias. -/
structure AttributePath where
  anno : Anno
  label : String
  output_label : Option String
deriving DecidableEq

/-- Attribute access `a.<label>` on an annotation produces an attribute path
with no output alias. -/
def Anno.attr (a : Anno) (l : String) : AttributePath :=
  ⟨a, l, none⟩

/-- `column_name(name)` sets the output alias of an attribute path. -/
def AttributePath.column_name (p : AttributePath) (n : String) : AttributePath :=
  { p with output_label := some n }

/-- Modelled from the spec: `base_annotation` of an attribute path is its
owning annotation reference. -/
def AttributePath.base_anno (p : AttributePath) : Anno :=
  p.anno

/-- Modelled from the spec: the clause-element variants
(`polyglotdb.graph.elements`, not under src/): value comparisons,
containment, and the four alignment variants over two annotation types. -/
inductive ClauseElement where
  | comparison (attr : AttributePath) (op : String) (value : String)
  | contains (attr : AttributePath) (op : String) (value : String)
  | left_aligned (first second : Anno)
  | right_aligned (first second : Anno)
  | not_left_aligned (first second : Anno)
  | not_right_aligned (first second : Anno)
deriving DecidableEq

/-- `c.attribute` in the source: comparison and containment elements expose
their attribute path; alignment elements have no such member (attribute
access raises `AttributeError`, modelled as `none`). -/
def ClauseElement.attr : ClauseElement → Option AttributePath
  | .comparison p _ _ => some p
  | .contains p _ _ => some p
  | _ => none

/-- `c.value` in the source: the literal operand of a comparison or
containment element; alignment elements have none. -/
def ClauseElement.value : ClauseElement → Option String
  | .comparison _ _ v => some v
  | .contains _ _ v => some v
  | _ => none

/-- Modelled from the spec: `c.annotations` reports every annotation type the
clause element references. -/
def ClauseElement.annotations : ClauseElement → List Anno
  | .comparison p _ _ => [p.anno]
  | .contains p _ _ => [p.anno]
  | .left_aligned f s => [f, s]
  | .right_aligned f s => [f, s]
  | .not_left_aligned f s => [f, s]
  | .not_right_aligned f s => [f, s]

/-- Whether `c.attribute` access succeeds on this clause element. -/
def has_attr (c : ClauseElement) : Bool :=
  (ClauseElement.attr c).isSome

/-- The test `c.attribute.label == 'discourse'` of `GraphQuery.cypher`, with
the `AttributeError` of an attribute-less element caught as `False`. -/
def is_discourse_crit (c : ClauseElement) : Bool :=
  match ClauseElement.attr c with
  | some p => p.label == "discourse"
  | none => false

/-- The in-place assignment `c2.attribute.annotation.discourse_label = v` of
`GraphQuery.cypher`, as a value update; elements without an attribute are
returned unchanged (the caller tests `has_attr` first). -/
def set_clause_discourse (v : String) : ClauseElement → ClauseElement
  | .comparison p op w =>
      .comparison { p with anno := { p.anno with discourse_label := some v } } op w
  | .contains p op w =>
      .contains { p with anno := { p.anno with discourse_label := some v } } op w
  | c => c

/-- Modelled from the spec: an aggregate specification (`polyglotdb.graph.func`,
not under src/); `count` is the spec injected by `GraphQuery.count`. -/
inductive AggregateSpec where
  | count
  | spec (name : String)
deriving DecidableEq

/-- The `GraphQuery` accumulator state: the fields initialized by
`GraphQuery.__init__` (the `corpus` collaborator is modelled globally by
`corpus_getattr`). -/
@[ext]
structure GraphQuery where
  is_timed : Bool
  to_find : Anno
  _criterion : List ClauseElement
  _columns : List AttributePath
  _additional_columns : List AttributePath
  _order_by : List (AttributePath × Bool)
  _group_by : List AttributePath
  _aggregate : List AggregateSpec
  _set_type_labels : List String
  _set_token_labels : List String
  _set_type : List (String × String)
  _set_token : List (String × String)
  _delete : Bool
deriving DecidableEq

/-- `GraphQuery.__init__`: default columns are the id of the token and the
label of the type of the searched-for annotation. -/
def GraphQuery.init (to_find : Anno) (is_timed : Bool) : GraphQuery where
  is_timed := is_timed
  to_find := to_find
  _criterion := []
  _columns := [(to_find.attr "id").column_name "id",
               (to_find.attr "label").column_name "label"]
  _additional_columns := []
  _order_by := []
  _group_by := []
  _aggregate := []
  _set_type_labels := []
  _set_token_labels := []
  _set_type := []
  _set_token := []
  _delete := false

/-- `clear_columns`: remove any columns specified. -/
def GraphQuery.clear_columns (q : GraphQuery) : GraphQuery :=
  { q with _columns := [] }

/-- `filter(*args)`: extends the criterion list. -/
def GraphQuery.filter (q : GraphQuery) (args : List ClauseElement) : GraphQuery :=
  { q with _criterion := q._criterion ++ args }

/-- `filter_contains(*args)` (deprecated alias of `filter`). -/
def GraphQuery.filter_contains (q : GraphQuery) (args : List ClauseElement) : GraphQuery :=
  { q with _criterion := q._criterion ++ args }

/-- `filter_contained_by(*args)` (deprecated alias of `filter`). -/
def GraphQuery.filter_contained_by (q : GraphQuery) (args : List ClauseElement) : GraphQuery :=
  { q with _criterion := q._criterion ++ args }

/-- `columns(*args)`: adds columns not already present among the additional
columns or the default columns. -/
def GraphQuery.columns (q : GraphQuery) (args : List AttributePath) : GraphQuery :=
  { q with _additional_columns :=
      q._additional_columns ++
        args.filter (fun x => decide (¬ x ∈ q._additional_columns ++ q._columns)) }

/-- `filter_left_aligned(annotation_type)`. -/
def GraphQuery.filter_left_aligned (q : GraphQuery) (other : Anno) : GraphQuery :=
  { q with _criterion := q._criterion ++ [ClauseElement.left_aligned q.to_find other] }

/-- `filter_right_aligned(annotation_type)`. -/
def GraphQuery.filter_right_aligned (q : GraphQuery) (other : Anno) : GraphQuery :=
  { q with _criterion := q._criterion ++ [ClauseElement.right_aligned q.to_find other] }

/-- `filter_not_left_aligned(annotation_type)`. -/
def GraphQuery.filter_not_left_aligned (q : GraphQuery) (other : Anno) : GraphQuery :=
  { q with _criterion := q._criterion ++ [ClauseElement.not_left_aligned q.to_find other] }

/-- `filter_not_right_aligned(annotation_type)`. -/
def GraphQuery.filter_not_right_aligned (q : GraphQuery) (other : Anno) : GraphQuery :=
  { q with _criterion := q._criterion ++ [ClauseElement.not_right_aligned q.to_find other] }

/-- `group_by(*args)`. -/
def GraphQuery.group_by (q : GraphQuery) (args : List AttributePath) : GraphQuery :=
  { q with _group_by := q._group_by ++ args }

/-- `order_by(field, descending)`. -/
def GraphQuery.order_by (q : GraphQuery) (field : AttributePath) (descending : Bool) : GraphQuery :=
  { q with _order_by := q._order_by ++ [(field, descending)] }

/-- `discourses(output_name)`: adds a discourse-name column through `columns`. -/
def GraphQuery.discourses (q : GraphQuery) (output_name : Option String) : GraphQuery :=
  q.columns [(q.to_find.attr "discourse").column_name (output_name.getD "discourse")]

/-- `times(begin_name, end_name)`: adds begin and end columns through `columns`. -/
def GraphQuery.times (q : GraphQuery) (begin_name end_name : Option String) : GraphQuery :=
  (q.columns [(q.to_find.attr "begin").column_name (begin_name.getD "begin")]).columns
    [(q.to_find.attr "end").column_name (end_name.getD "end")]

/-- `duration()`: appends a duration column directly to the additional
columns (without the dedup of `columns`). -/
def GraphQuery.duration (q : GraphQuery) : GraphQuery :=
  { q with _additional_columns :=
      q._additional_columns ++ [(q.to_find.attr "duration").column_name "duration"] }

/-- The inner sweep of the discourse propagation in `GraphQuery.cypher`:
`for c2 in self._criterion: c2.attribute.annotation.discourse_label = c.value`.
The first element without an `attribute` member raises `AttributeError`,
aborting the sweep; the boolean reports whether the sweep completed. -/
def propagate_step (v : String) : List ClauseElement → List ClauseElement × Bool
  | [] => ([], true)
  | c :: rest =>
    if has_attr c then
      let r := propagate_step v rest
      (set_clause_discourse v c :: r.1, r.2)
    else (c :: rest, false)

/-- The outer loop of the discourse propagation in `GraphQuery.cypher`,
iterating by position over the (in-place mutated) criterion list: on the
first criterion whose attribute is labelled `discourse`, sweep the whole list
assigning its value; `break` if the sweep completed, otherwise (the
`AttributeError` was caught) continue with the next criterion.  The fuel
argument bounds the loop; `cs.length + 1` always suffices. -/
def propagate_go : Nat → List ClauseElement → Nat → List ClauseElement
  | 0, cs, _ => cs
  | fuel + 1, cs, i =>
    match cs[i]? with
    | none => cs
    | some c =>
      if is_discourse_crit c then
        match ClauseElement.value c with
        | some v =>
          let r := propagate_step v cs
          if r.2 then r.1 else propagate_go fuel r.1 (i + 1)
        | none => propagate_go fuel cs (i + 1)
      else propagate_go fuel cs (i + 1)

/-- The complete discourse propagation performed at the start of
`GraphQuery.cypher` on the criterion list. -/
def propagate (cs : List ClauseElement) : List ClauseElement :=
  propagate_go (cs.length + 1) cs 0

/-- The canonical key built for a criterion's annotation reference in
`GraphQuery.annotation_levels`: a fresh corpus annotation of the same type,
its discourse label assigned from the reference, then both subset qualifier
lists applied. -/
def canonical_criterion_key (a : Anno) : Anno :=
  (((corpus_getattr a.type).set_discourse a.discourse_label).subset_type
      a.subset_type_labels).subset_token a.subset_token_labels

/-- The canonical key built for a column / group-by / additional-column
reference in `GraphQuery.annotation_levels`: a fresh corpus annotation of the
same type with both subset qualifier lists applied — the discourse label is
not copied over. -/
def canonical_column_key (a : Anno) : Anno :=
  ((corpus_getattr a.type).subset_type a.subset_type_labels).subset_token
    a.subset_token_labels

/-- `annotation_levels[key].add(a)` on the `defaultdict(set)`, modelled as an
insertion-ordered association list with duplicate-free value lists. -/
def levels_insert (m : List (Anno × List Anno)) (key : Anno) (a : Anno) :
    List (Anno × List Anno) :=
  match m with
  | [] => [(key, [a])]
  | (k, s) :: rest =>
    if k = key then (k, if a ∈ s then s else s ++ [a]) :: rest
    else (k, s) :: levels_insert rest key a

/-- `GraphQuery.annotation_levels`: canonical annotation levels from the
criteria, then from columns, group-by fields and additional columns. -/
def GraphQuery.annotation_levels (q : GraphQuery) : List (Anno × List Anno) :=
  let m := q._criterion.foldl
    (fun m c => (ClauseElement.annotations c).foldl
      (fun m a => levels_insert m (canonical_criterion_key a) a) m) []
  (q._columns ++ q._group_by ++ q._additional_columns).foldl
    (fun m col => levels_insert m (canonical_column_key col.base_anno) col.base_anno) m

/-- A printable form of an annotation reference, for statement rendering. -/
def render_anno (a : Anno) : String :=
  "(" ++ a.type ++ "," ++ a.discourse_label.getD "_" ++ "," ++
    String.intercalate ";" a.subset_type_labels ++ "," ++
    String.intercalate ";" a.subset_token_labels ++ ")"

/-- A printable form of an attribute path, for statement rendering. -/
def render_attr (p : AttributePath) : String :=
  render_anno p.anno ++ "." ++ p.label ++ ":" ++ p.output_label.getD "_"

/-- A printable form of a clause element, for statement rendering. -/
def render_clause : ClauseElement → String
  | .comparison p op v => render_attr p ++ op ++ v
  | .contains p op v => "contains(" ++ render_attr p ++ op ++ v ++ ")"
  | .left_aligned f s => "lalign(" ++ render_anno f ++ "," ++ render_anno s ++ ")"
  | .right_aligned f s => "ralign(" ++ render_anno f ++ "," ++ render_anno s ++ ")"
  | .not_left_aligned f s => "nlalign(" ++ render_anno f ++ "," ++ render_anno s ++ ")"
  | .not_right_aligned f s => "nralign(" ++ render_anno f ++ "," ++ render_anno s ++ ")"

/-- A printable form of an aggregate specification. -/
def render_agg : AggregateSpec → String
  | .count => "count()"
  | .spec n => n ++ "()"

/-- The pattern/constraint/projection section of a compiled statement: match
patterns from `annotation_levels`, criteria, projection, ordering, grouping
and mutation maps, all rendered from the state. -/
def query_body (q : GraphQuery) : String :=
  "MATCH " ++ String.intercalate "," ((q.annotation_levels).map (fun p => render_anno p.1)) ++
  " WHERE " ++ String.intercalate "," (q._criterion.map render_clause) ++
  " WITH " ++ String.intercalate "," ((q._columns ++ q._additional_columns).map render_attr) ++
  " AGG " ++ String.intercalate "," (q._aggregate.map render_agg) ++
  " ORDER " ++ String.intercalate ","
    (q._order_by.map (fun p => render_attr p.1 ++ if p.2 then " DESC" else "")) ++
  " GROUP " ++ String.intercalate "," (q._group_by.map render_attr) ++
  " SET " ++ String.intercalate "," (q._set_type.map (fun p => p.1 ++ "=" ++ p.2)) ++ "|" ++
  String.intercalate "," (q._set_token.map (fun p => p.1 ++ "=" ++ p.2)) ++ "|" ++
  String.intercalate ";" q._set_type_labels ++ "|" ++
  String.intercalate ";" q._set_token_labels

/-- Modelled from the spec: `query_to_cypher` (`polyglotdb.graph.cypher`, not
under src/) — the statement compiler.  A deterministic function of the
accumulated builder state: the write path (delete) and the aggregate path
replace the plain-read head, and the body reuses the identical
pattern/constraint compilation. -/
def query_to_cypher (q : GraphQuery) : String :=
  (if q._delete then "DELETE " else if q._aggregate.isEmpty then "RETURN " else "AGGREGATE ") ++
    query_body q

/-- Modelled from the spec: `query_to_params` (`polyglotdb.graph.cypher`, not
under src/) — every literal operand of a criterion becomes a named parameter,
never interpolated into the statement text. -/
def query_to_params (q : GraphQuery) : List (String × String) :=
  (q._criterion.enum).filterMap
    (fun p => (ClauseElement.value p.2).map (fun v => ("param" ++ toString p.1, v)))

/-- `GraphQuery.cypher`: first the in-place discourse propagation over the
criteria, then the statement compilation.  The source mutates `self`; here
the post-propagation state is returned alongside the statement text. -/
def GraphQuery.cypher (q : GraphQuery) : String × GraphQuery :=
  let q1 := { q with _criterion := propagate q._criterion }
  (query_to_cypher q1, q1)

/-- `GraphQuery.cypher_params`: parameter map of the current state (no
mutation). -/
def GraphQuery.cypher_params (q : GraphQuery) : List (String × String) :=
  query_to_params q

/-- The compiled (statement, parameters) pair produced by a terminal
operation: `cypher()` first (with its mutation), then `cypher_params()` on
the mutated state. -/
def GraphQuery.compiled (q : GraphQuery) : String × List (String × String) :=
  ((q.cypher).1, (q.cypher).2.cypher_params)

/-- Modelled from the spec: a row set returned by the store collaborator; a
scalar-aggregate result additionally exposes `.one`. -/
structure RowSet where
  rows : List (List String)
  one : String
deriving DecidableEq

/-- Modelled from the spec: the store collaborator
`corpus.graph.cypher.execute(statement, **params)`. -/
def Store : Type :=
  String → List (String × String) → RowSet

/-- A trivial concrete store, used for concrete evaluations. -/
def store0 : Store :=
  fun _ _ => ⟨[], "0"⟩

/-- Result of a terminal operation: the Python return value, the builder
state after the call, and the statements submitted to the store during the
call. -/
structure TermResult (α : Type) where
  value : α
  state : GraphQuery
  execs : List (String × List (String × String))

/-- `all()`: compile and execute, returning every row. -/
def GraphQuery.all (q : GraphQuery) (store : Store) : TermResult RowSet :=
  let r := q.cypher
  let p := r.2.cypher_params
  ⟨store r.1 p, r.2, [(r.1, p)]⟩

/-- `count()`: inject a `Count` aggregate, compile and execute, restore the
aggregate list to empty, and return the single scalar `.one`. -/
def GraphQuery.count (q : GraphQuery) (store : Store) : TermResult String :=
  let q0 := { q with _aggregate := [AggregateSpec.count] }
  let r := q0.cypher
  let p := r.2.cypher_params
  let value := store r.1 p
  ⟨value.one, { r.2 with _aggregate := [] }, [(r.1, p)]⟩

/-- `aggregate(*args)`: install the caller-supplied aggregate specs, compile
and execute; return the row set when grouping is present, otherwise the
single scalar `.one`.  The specs are not restored. -/
def GraphQuery.aggregate (q : GraphQuery) (store : Store) (args : List AggregateSpec) :
    TermResult (RowSet ⊕ String) :=
  let q0 := { q with _aggregate := args }
  let r := q0.cypher
  let p := r.2.cypher_params
  let value := store r.1 p
  ⟨if q0._group_by.isEmpty then Sum.inr value.one else Sum.inl value, r.2, [(r.1, p)]⟩

/-- Python dict update `d[k] = v` for each pair, preserving insertion order. -/
def dict_update (d kvs : List (String × String)) : List (String × String) :=
  kvs.foldl
    (fun d kv =>
      if d.any (fun p => p.1 == kv.1) then
        d.map (fun p => if p.1 == kv.1 then kv else p)
      else d ++ [kv]) d

/-- `set_type(*args, **kwargs)`: install labels and properties, compile and
execute, then restore `_set_type` and `_set_type_labels`; returns `None`. -/
def GraphQuery.set_type (q : GraphQuery) (labels : List String)
    (kwargs : List (String × String)) (store : Store) : TermResult Unit :=
  let q0 := { q with _set_type := dict_update q._set_type kwargs,
                     _set_type_labels := q._set_type_labels ++ labels }
  let r := q0.cypher
  let p := r.2.cypher_params
  let _ := store r.1 p
  ⟨(), { r.2 with _set_type := [], _set_type_labels := [] }, [(r.1, p)]⟩

/-- `set_token(*args, **kwargs)`: install labels and properties, compile and
execute, then restore `_set_token` and `_set_token_labels`; returns `None`. -/
def GraphQuery.set_token (q : GraphQuery) (labels : List String)
    (kwargs : List (String × String)) (store : Store) : TermResult Unit :=
  let q0 := { q with _set_token := dict_update q._set_token kwargs,
                     _set_token_labels := q._set_token_labels ++ labels }
  let r := q0.cypher
  let p := r.2.cypher_params
  let _ := store r.1 p
  ⟨(), { r.2 with _set_token := [], _set_token_labels := [] }, [(r.1, p)]⟩

/-- `delete()`: set the delete flag (it is never reset), compile and execute;
returns `None`. -/
def GraphQuery.delete (q : GraphQuery) (store : Store) : TermResult Unit :=
  let q0 := { q with _delete := true }
  let r := q0.cypher
  let p := r.2.cypher_params
  let _ := store r.1 p
  ⟨(), r.2, [(r.1, p)]⟩

/-- The discourse values carried by the discourse criteria of a list, in
order: the values the outer propagation loop processes. -/
def dlist (cs : List ClauseElement) : List String :=
  (cs.filter is_discourse_crit).filterMap ClauseElement.value

/-- Closed form of `propagate_go cs i`: when every criterion has an attribute
member the first discourse value from position `i` on is swept over the whole
list and the loop breaks; otherwise every discourse criterion from position
`i` on sweeps in turn (each sweep aborting at the first attribute-less
element), so the last discourse value wins. -/
def propagate_spec (cs : List ClauseElement) (i : Nat) : List ClauseElement :=
  let l := dlist (cs.drop i)
  if cs.all has_attr then
    match l.head? with
    | none => cs
    | some v => (propagate_step v cs).1
  else
    match l.getLast? with
    | none => cs
    | some v => (propagate_step v cs).1

/-- Concrete annotation: a "word" reference with no qualifiers. -/
def anno_word : Anno := ⟨"word", none, [], []⟩

/-- Concrete annotation: a "phone" reference with no qualifiers. -/
def anno_phone : Anno := ⟨"phone", none, [], []⟩

/-- Concrete annotation for claim C1: a "phone" reference carrying a
discourse label. -/
def c1_a : Anno := ⟨"phone", some "d", [], []⟩

/-- Concrete query for claim C1: searched-for type `c1_a`, one criterion on
its label; the default columns also reference `c1_a`. -/
def c1_q : GraphQuery :=
  (GraphQuery.init c1_a false).filter
    [ClauseElement.comparison (c1_a.attr "label") "==" "x"]

/-- Concrete discourse criterion for claim C2. -/
def c2_d : ClauseElement :=
  ClauseElement.comparison (anno_word.attr "discourse") "==" "d1"

/-- Concrete alignment criterion for claim C2 (no `attribute` member). -/
def c2_al : ClauseElement :=
  ClauseElement.left_aligned anno_word anno_phone

/-- Concrete plain comparison for claim C2, listed after the alignment. -/
def c2_other : ClauseElement :=
  ClauseElement.comparison (anno_phone.attr "label") "==" "s"

/-- Concrete query for claim C2: discourse criterion, then an alignment
criterion, then another comparison. -/
def c2_q : GraphQuery :=
  (GraphQuery.init anno_word false).filter [c2_d, c2_al, c2_other]

/-- Concrete query for the witness of claim C2: every criterion has an
attribute member and the first one constrains `discourse`. -/
def c2w_q : GraphQuery :=
  (GraphQuery.init anno_word false).filter
    [c2_d, ClauseElement.comparison (anno_word.attr "label") "==" "w"]

/-- Concrete query for claim C4. -/
def c4_q : GraphQuery :=
  GraphQuery.init anno_word false

/-- Concrete non-column attribute path for claim C7. -/
def c7_field : AttributePath :=
  anno_word.attr "custom"

/-- Concrete query for claim C7: orders by a field never added as a column. -/
def c7_q : GraphQuery :=
  (GraphQuery.init anno_word false).order_by c7_field false

/-- Concrete query for claim C9: a single discourse criterion. -/
def c9_q : GraphQuery :=
  (GraphQuery.init anno_word false).filter [c2_d]

theorem set_clause_discourse_is_discourse (v : String) (c : ClauseElement) :
    is_discourse_crit (set_clause_discourse v c) = is_discourse_crit c := by
  cases c <;> rfl

theorem set_clause_discourse_value (v : String) (c : ClauseElement) :
    ClauseElement.value (set_clause_discourse v c) = ClauseElement.value c := by
  cases c <;> rfl

theorem set_clause_discourse_has_attr (v : String) (c : ClauseElement) :
    has_attr (set_clause_discourse v c) = has_attr c := by
  cases c <;> rfl

theorem set_clause_discourse_set (v w : String) (c : ClauseElement) :
    set_clause_discourse v (set_clause_discourse w c) = set_clause_discourse v c := by
  cases c <;> rfl

theorem drop_eq_cons_of_getElem? {α : Type} : ∀ (cs : List α) (i : Nat) (c : α),
    cs[i]? = some c → cs.drop i = c :: cs.drop (i + 1)
  | [], i, c, h => by simp at h
  | a :: l, 0, c, h => by simp_all
  | a :: l, i + 1, c, h => by
      simp only [List.getElem?_cons_succ] at h
      simpa [List.drop_succ_cons] using drop_eq_cons_of_getElem? l i c h

theorem propagate_step_length (v : String) : ∀ cs : List ClauseElement,
    (propagate_step v cs).1.length = cs.length
  | [] => rfl
  | c :: rest => by
      cases h : has_attr c <;>
        simp [propagate_step, h, propagate_step_length v rest]

theorem propagate_step_flag (v : String) : ∀ cs : List ClauseElement,
    (propagate_step v cs).2 = cs.all has_attr
  | [] => rfl
  | c :: rest => by
      cases h : has_attr c <;>
        simp [propagate_step, h, List.all_cons, propagate_step_flag v rest]

theorem dlist_nil : dlist [] = [] := rfl

theorem dlist_cons (c : ClauseElement) (l : List ClauseElement) :
    dlist (c :: l) =
      (if is_discourse_crit c then (ClauseElement.value c).toList else []) ++ dlist l := by
  cases h : is_discourse_crit c <;> cases hv : ClauseElement.value c <;>
    simp [dlist, List.filter_cons, h, List.filterMap_cons, hv]

theorem dlist_drop_propagate_step (v : String) : ∀ (cs : List ClauseElement) (i : Nat),
    dlist (((propagate_step v cs).1).drop i) = dlist (cs.drop i)
  | [], i => by simp [propagate_step]
  | c :: rest, 0 => by
      cases h : has_attr c
      · simp [propagate_step, h]
      · have ih := dlist_drop_propagate_step v rest 0
        simp only [List.drop_zero] at ih
        simp [propagate_step, h, dlist_cons, ih,
          set_clause_discourse_is_discourse, set_clause_discourse_value]
  | c :: rest, i + 1 => by
      cases h : has_attr c
      · simp [propagate_step, h]
      · simpa [propagate_step, h, List.drop_succ_cons] using
          dlist_drop_propagate_step v rest i

theorem dlist_propagate_step (v : String) (cs : List ClauseElement) :
    dlist ((propagate_step v cs).1) = dlist cs := by
  simpa using dlist_drop_propagate_step v cs 0

theorem all_attr_propagate_step (v : String) : ∀ cs : List ClauseElement,
    ((propagate_step v cs).1).all has_attr = cs.all has_attr
  | [] => rfl
  | c :: rest => by
      cases h : has_attr c <;>
        simp [propagate_step, h, List.all_cons, set_clause_discourse_has_attr,
          all_attr_propagate_step v rest]

theorem propagate_step_step (v w : String) : ∀ cs : List ClauseElement,
    propagate_step v ((propagate_step w cs).1) = propagate_step v cs
  | [] => rfl
  | c :: rest => by
      cases h : has_attr c
      · simp [propagate_step, h]
      · simp [propagate_step, h, set_clause_discourse_has_attr,
          set_clause_discourse_set, propagate_step_step v w rest]

theorem propagate_step_of_all (v : String) : ∀ cs : List ClauseElement,
    cs.all has_attr = true →
    propagate_step v cs = (cs.map (set_clause_discourse v), true)
  | [], _ => rfl
  | c :: rest, h => by
      simp only [List.all_cons, Bool.and_eq_true] at h
      simp [propagate_step, h.1, propagate_step_of_all v rest h.2]

theorem value_of_discourse (c : ClauseElement) (h : is_discourse_crit c = true) :
    ∃ v, ClauseElement.value c = some v := by
  cases c <;> first
    | exact ⟨_, rfl⟩
    | simp [is_discourse_crit, ClauseElement.attr] at h

theorem propagate_go_spec : ∀ (fuel : Nat) (cs : List ClauseElement) (i : Nat),
    cs.length - i < fuel → propagate_go fuel cs i = propagate_spec cs i := by
  intro fuel
  induction fuel with
  | zero => intro cs i h; exact absurd h (by omega)
  | succ fuel ih =>
    intro cs i h
    cases hget : cs[i]? with
    | none =>
      have hlen : cs.length ≤ i := by
        rcases Nat.lt_or_ge i cs.length with hc | hc
        · rw [List.getElem?_eq_getElem hc] at hget
          exact absurd hget (by simp)
        · exact hc
      have hdrop : cs.drop i = [] := List.drop_eq_nil_of_le hlen
      simp [propagate_go, hget, propagate_spec, hdrop, dlist_nil]
    | some c =>
      have hi : i < cs.length := (List.getElem?_eq_some.mp hget).1
      have hdrop : cs.drop i = c :: cs.drop (i + 1) := drop_eq_cons_of_getElem? cs i c hget
      cases hd : is_discourse_crit c with
      | false =>
        have ihx : propagate_go fuel cs (i + 1) = propagate_spec cs (i + 1) :=
          ih cs (i + 1) (by omega)
        have hspec : propagate_spec cs (i + 1) = propagate_spec cs i := by
          simp [propagate_spec, hdrop, dlist_cons, hd]
        simp [propagate_go, hget, hd, ihx, hspec]
      | true =>
        obtain ⟨v, hv⟩ := value_of_discourse c hd
        cases hr : (propagate_step v cs).2 with
        | true =>
          have hall : cs.all has_attr = true := by
            rw [← propagate_step_flag v cs]; exact hr
          have hdl : dlist (cs.drop i) = v :: dlist (cs.drop (i + 1)) := by
            simp [hdrop, dlist_cons, hd, hv]
          simp [propagate_go, hget, hd, hv, hr, propagate_spec, hall, hdl]
        | false =>
          have hall : cs.all has_attr = false := by
            rw [← propagate_step_flag v cs]; exact hr
          have hlen1 : (propagate_step v cs).1.length = cs.length :=
            propagate_step_length v cs
          have ihx : propagate_go fuel (propagate_step v cs).1 (i + 1)
              = propagate_spec (propagate_step v cs).1 (i + 1) :=
            ih _ (i + 1) (by omega)
          have hall2 : ((propagate_step v cs).1).all has_attr = false := by
            rw [all_attr_propagate_step]; exact hall
          have hdl : dlist (((propagate_step v cs).1).drop (i + 1)) = dlist (cs.drop (i + 1)) :=
            dlist_drop_propagate_step v cs (i + 1)
          have hstep : propagate_spec (propagate_step v cs).1 (i + 1) = propagate_spec cs i := by
            cases htail : dlist (cs.drop (i + 1)) with
            | nil =>
              simp [propagate_spec, hall2, hall, hdl, htail, hdrop, dlist_cons, hd, hv]
            | cons w l =>
              have hlast : (dlist (cs.drop i)).getLast? = (w :: l).getLast? := by
                rw [hdrop, dlist_cons]
                simp [hd, hv, htail]
              cases hlw : (w :: l).getLast? with
              | none => simp at hlw
              | some u =>
                simp [propagate_spec, hall2, hall, hdl, hlw, hlast, htail,
                  propagate_step_step]
          simp [propagate_go, hget, hd, hv, hr, ihx, hstep]

theorem propagate_eq_spec (cs : List ClauseElement) :
    propagate cs = propagate_spec cs 0 :=
  propagate_go_spec (cs.length + 1) cs 0 (by omega)

theorem propagate_spec_idem (cs : List ClauseElement) :
    propagate_spec (propagate_spec cs 0) 0 = propagate_spec cs 0 := by
  cases hall : cs.all has_attr with
  | true =>
    cases hh : (dlist cs).head? with
    | none =>
      have h1 : propagate_spec cs 0 = cs := by simp [propagate_spec, hall, hh]
      rw [h1]; exact h1
    | some v =>
      have h1 : propagate_spec cs 0 = (propagate_step v cs).1 := by
        simp [propagate_spec, hall, hh]
      have hall2 : ((propagate_step v cs).1).all has_attr = true := by
        rw [all_attr_propagate_step]; exact hall
      have hdl : dlist ((propagate_step v cs).1) = dlist cs := dlist_propagate_step v cs
      rw [h1]
      simp [propagate_spec, hall2, hdl, hh, propagate_step_step, h1]
  | false =>
    cases hh : (dlist cs).getLast? with
    | none =>
      have h1 : propagate_spec cs 0 = cs := by simp [propagate_spec, hall, hh]
      rw [h1]; exact h1
    | some v =>
      have h1 : propagate_spec cs 0 = (propagate_step v cs).1 := by
        simp [propagate_spec, hall, hh]
      have hall2 : ((propagate_step v cs).1).all has_attr = false := by
        rw [all_attr_propagate_step]; exact hall
      have hdl : dlist ((propagate_step v cs).1) = dlist cs := dlist_propagate_step v cs
      rw [h1]
      simp [propagate_spec, hall2, hdl, hh, propagate_step_step, h1]

theorem propagate_idem (cs : List ClauseElement) :
    propagate (propagate cs) = propagate cs := by
  rw [propagate_eq_spec cs, propagate_eq_spec (propagate_spec cs 0), propagate_spec_idem]

theorem cypher_of_fixed (q : GraphQuery) (h : propagate q._criterion = q._criterion) :
    q.cypher = (query_to_cypher q, q) := by
  unfold GraphQuery.cypher
  rw [h]

theorem levels_insert_keys (m : List (Anno × List Anno)) (key a : Anno) :
    (levels_insert m key a).map Prod.fst =
      if key ∈ m.map Prod.fst then m.map Prod.fst else m.map Prod.fst ++ [key] := by
  induction m with
  | nil => simp [levels_insert]
  | cons p rest ih =>
    obtain ⟨k, s⟩ := p
    by_cases hk : k = key
    · subst hk
      simp [levels_insert]
    · by_cases hm : key ∈ rest.map Prod.fst <;>
        simp [levels_insert, hk, ih, hm, Ne.symm hk]

theorem levels_insert_nodup (m : List (Anno × List Anno)) (key a : Anno)
    (h : (m.map Prod.fst).Nodup) : ((levels_insert m key a).map Prod.fst).Nodup := by
  rw [levels_insert_keys]
  by_cases hm : key ∈ m.map Prod.fst
  · simpa [hm] using h
  · simp [hm, List.nodup_append, h]

theorem levels_fold_nodup {α : Type} (f g : α → Anno) :
    ∀ (l : List α) (m : List (Anno × List Anno)),
      (m.map Prod.fst).Nodup →
      ((l.foldl (fun m x => levels_insert m (f x) (g x)) m).map Prod.fst).Nodup
  | [], _, h => h
  | x :: l, m, h => levels_fold_nodup f g l _ (levels_insert_nodup m (f x) (g x) h)

theorem levels_fold_crit_nodup :
    ∀ (cs : List ClauseElement) (m : List (Anno × List Anno)),
      (m.map Prod.fst).Nodup →
      ((cs.foldl (fun m c => (ClauseElement.annotations c).foldl
          (fun m a => levels_insert m (canonical_criterion_key a) a) m) m).map Prod.fst).Nodup
  | [], _, h => h
  | c :: cs, m, h =>
      levels_fold_crit_nodup cs _
        (levels_fold_nodup canonical_criterion_key id (ClauseElement.annotations c) m h)

theorem columns_add (q : GraphQuery) (args : List AttributePath) :
    (q.columns args)._additional_columns
      = q._additional_columns
        ++ args.filter (fun x => decide (¬ x ∈ q._additional_columns ++ q._columns)) :=
  rfl

theorem columns_cols (q : GraphQuery) (args : List AttributePath) :
    (q.columns args)._columns = q._columns :=
  rfl

/-- Claim C1, counterexample: in `c1_q` the very same annotation reference
`c1_a` — identical type, discourse label and subset qualifiers — is
referenced both by a criterion and by the default projected columns, yet
`annotation_levels` produces two distinct keys for it: criterion references
are canonicalized with their discourse label, column references without. -/
theorem C1_counterexample :
    GraphQuery.annotation_levels c1_q =
      [(⟨"phone", some "d", [], []⟩, [c1_a]), (⟨"phone", none, [], []⟩, [c1_a])] ∧
    (⟨"phone", some "d", [], []⟩ : Anno) ≠ (⟨"phone", none, [], []⟩ : Anno) := by
  exact ⟨by decide, by decide⟩

/-- Claim C1 (amended): `annotation_levels` returns a mapping whose keys are
pairwise distinct — one key per distinct canonical annotation, however many
criteria or columns reference it — but criterion references canonicalize
including their discourse label while column/group-by references canonicalize
with the discourse label dropped, so a criterion reference and a column
reference of the same annotation share a key exactly when the discourse
label is `none`. -/
theorem C1_amended (q : GraphQuery) :
    ((q.annotation_levels).map Prod.fst).Nodup ∧
    ∀ a : Anno, canonical_column_key a = canonical_criterion_key a ↔
      a.discourse_label = none := by
  constructor
  · exact levels_fold_nodup (fun col => canonical_column_key col.base_anno)
      (fun col => col.base_anno) (q._columns ++ q._group_by ++ q._additional_columns) _
      (levels_fold_crit_nodup q._criterion [] (by simp))
  · intro a
    simp [canonical_column_key, canonical_criterion_key, corpus_getattr,
      Anno.set_discourse, Anno.subset_type, Anno.subset_token, Anno.mk.injEq, eq_comm]

/-- Claim C2, counterexample: in `c2_q` the first criterion constrains
`discourse` to `"d1"`, but because the second criterion is an alignment
element without an `attribute` member, the in-place sweep aborts with the
caught `AttributeError` before reaching the third criterion, whose
annotation keeps discourse label `none` after `cypher()` — it is not
assigned `"d1"` as the claim requires. -/
theorem C2_counterexample :
    (c2_q.cypher).2._criterion = [set_clause_discourse "d1" c2_d, c2_al, c2_other] ∧
    (ClauseElement.attr c2_other).map (fun p => p.anno.discourse_label) = some none ∧
    set_clause_discourse "d1" c2_other ≠ c2_other := by
  exact ⟨by decide, by decide, by decide⟩

/-- Claim C2 (amended): when every accumulated criterion has an `attribute`
member and some criterion constrains `discourse`, `cypher()` first assigns
the first such criterion's value to the attribute annotation of every
criterion, and only then compiles — `query_to_cypher` (and hence
`annotation_levels`) is applied to the propagated state.  When a criterion
without an `attribute` member (e.g. an alignment) occurs, the sweep stops at
it, so only earlier criteria receive the label. -/
theorem C2_amended (q : GraphQuery) (v : String)
    (hattr : q._criterion.all has_attr = true)
    (hfirst : (dlist q._criterion).head? = some v) :
    (q.cypher).2._criterion = q._criterion.map (set_clause_discourse v) ∧
    (q.cypher).1 = query_to_cypher
      { q with _criterion := q._criterion.map (set_clause_discourse v) } := by
  have hp : propagate q._criterion = q._criterion.map (set_clause_discourse v) := by
    rw [propagate_eq_spec]
    simp [propagate_spec, List.drop_zero, hattr, hfirst,
      propagate_step_of_all v q._criterion hattr]
  constructor
  · show propagate q._criterion = _
    exact hp
  · show query_to_cypher { q with _criterion := propagate q._criterion } = _
    rw [hp]

/-- Claim C2, witness: a concrete query whose criteria all carry attribute
members and whose first criterion constrains `discourse` to `"d1"`. -/
theorem C2_witness :
    (c2w_q._criterion.all has_attr = true) ∧
    ((dlist c2w_q._criterion).head? = some "d1") ∧
    ((c2w_q.cypher).2._criterion = c2w_q._criterion.map (set_clause_discourse "d1") ∧
     (c2w_q.cypher).1 = query_to_cypher
       { c2w_q with _criterion := c2w_q._criterion.map (set_clause_discourse "d1") }) :=
  ⟨by decide, by decide, C2_amended c2w_q "d1" (by decide) (by decide)⟩

/-- Claim C3: compiling twice with no intervening mutation is deterministic —
the second `cypher()` returns the same statement text, and the parameter map
after the second call equals the one after the first: the only mutation
`cypher()` performs, the discourse propagation, is idempotent. -/
theorem C3_determinism (q : GraphQuery) :
    ((q.cypher).2.cypher).1 = (q.cypher).1 ∧
    ((q.cypher).2.cypher).2.cypher_params = (q.cypher).2.cypher_params := by
  have hfix : propagate ((q.cypher).2)._criterion = ((q.cypher).2)._criterion := by
    show propagate (propagate q._criterion) = propagate q._criterion
    exact propagate_idem q._criterion
  have h2 := cypher_of_fixed _ hfix
  constructor
  · rw [h2]
    rfl
  · rw [h2]

/-- Claim C4, counterexample: `set_type`, `set_token` and `delete` are listed
by the claim among the operations that mutate and chain without executing,
but each of them submits a statement to the store during the call itself
(and returns `None`, not the accumulator). -/
theorem C4_counterexample :
    (c4_q.set_type ["t"] [("p", "1")] store0).execs.length = 1 ∧
    (c4_q.set_token ["t"] [("p", "1")] store0).execs.length = 1 ∧
    (c4_q.delete store0).execs.length = 1 :=
  ⟨rfl, rfl, rfl⟩

/-- Claim C4 (amended): `filter`, the four alignment filters, `columns`,
`group_by`, `order_by`, `discourses`, `times` and `duration` mutate the
accumulator state and return the accumulator (they are pure state
transformers — no store access); `set_type`, `set_token` and `delete`
instead mutate state, execute exactly one statement immediately during the
call, and return nothing. -/
theorem C4_amended (q : GraphQuery) (args : List ClauseElement)
    (cols : List AttributePath) (other : Anno) (field : AttributePath)
    (descending : Bool) (labels : List String) (kwargs : List (String × String))
    (store : Store) (nm b e : Option String) :
    (q.filter args)._criterion = q._criterion ++ args ∧
    (q.filter_left_aligned other)._criterion
      = q._criterion ++ [ClauseElement.left_aligned q.to_find other] ∧
    (q.filter_right_aligned other)._criterion
      = q._criterion ++ [ClauseElement.right_aligned q.to_find other] ∧
    (q.filter_not_left_aligned other)._criterion
      = q._criterion ++ [ClauseElement.not_left_aligned q.to_find other] ∧
    (q.filter_not_right_aligned other)._criterion
      = q._criterion ++ [ClauseElement.not_right_aligned q.to_find other] ∧
    (q.columns cols)._additional_columns
      = q._additional_columns
        ++ cols.filter (fun x => decide (¬ x ∈ q._additional_columns ++ q._columns)) ∧
    (q.group_by cols)._group_by = q._group_by ++ cols ∧
    (q.order_by field descending)._order_by = q._order_by ++ [(field, descending)] ∧
    q.discourses nm
      = q.columns [(q.to_find.attr "discourse").column_name (nm.getD "discourse")] ∧
    q.times b e
      = (q.columns [(q.to_find.attr "begin").column_name (b.getD "begin")]).columns
          [(q.to_find.attr "end").column_name (e.getD "end")] ∧
    (q.duration)._additional_columns
      = q._additional_columns ++ [(q.to_find.attr "duration").column_name "duration"] ∧
    (q.set_type labels kwargs store).execs.length = 1 ∧
    (q.set_type labels kwargs store).value = () ∧
    (q.set_token labels kwargs store).execs.length = 1 ∧
    (q.set_token labels kwargs store).value = () ∧
    (q.delete store).execs.length = 1 ∧
    (q.delete store).value = () :=
  ⟨rfl, rfl, rfl, rfl, rfl, rfl, rfl, rfl, rfl, rfl, rfl, rfl, rfl, rfl, rfl, rfl, rfl⟩

/-- Claim C5: `count()` executes exactly the statement compiled with the
injected count aggregate and returns the single scalar `.one` of the store's
response; `aggregate(specs)` executes with the caller-supplied specs and
returns the single scalar `.one` when no group-by fields were specified, and
the row set otherwise. -/
theorem C5_count_aggregate (q : GraphQuery) (store : Store) (args : List AggregateSpec) :
    (q.count store).value
      = (store ({ q with _aggregate := [AggregateSpec.count] }.compiled).1
               ({ q with _aggregate := [AggregateSpec.count] }.compiled).2).one ∧
    (q.count store).execs = [{ q with _aggregate := [AggregateSpec.count] }.compiled] ∧
    (q.aggregate store args).execs = [{ q with _aggregate := args }.compiled] ∧
    (q.aggregate store args).value
      = (if q._group_by.isEmpty
         then Sum.inr (store ({ q with _aggregate := args }.compiled).1
                             ({ q with _aggregate := args }.compiled).2).one
         else Sum.inl (store ({ q with _aggregate := args }.compiled).1
                             ({ q with _aggregate := args }.compiled).2)) :=
  ⟨rfl, rfl, rfl, rfl⟩

/-- Claim C6: `columns` deduplicates by value equality against both the
default columns and all previously added columns, preserving first-seen
order (the filtered append), and is idempotent under repeated identical
calls. -/
theorem C6_columns_dedup (q : GraphQuery) (args : List AttributePath) :
    (q.columns args)._additional_columns
      = q._additional_columns
        ++ args.filter (fun x => decide (¬ x ∈ q._additional_columns ++ q._columns)) ∧
    (q.columns args).columns args = q.columns args := by
  refine ⟨rfl, ?_⟩
  have hfil : args.filter
      (fun x => decide (¬ x ∈ (q.columns args)._additional_columns
        ++ (q.columns args)._columns)) = [] := by
    rw [List.filter_eq_nil_iff]
    intro x hx
    simp only [decide_eq_true_eq, not_not, columns_add, columns_cols]
    by_cases hmem : x ∈ q._additional_columns ++ q._columns
    · rcases List.mem_append.mp hmem with h | h
      · exact List.mem_append.mpr (Or.inl (List.mem_append.mpr (Or.inl h)))
      · exact List.mem_append.mpr (Or.inr h)
    · have hin : x ∈ args.filter
          (fun x => decide (¬ x ∈ q._additional_columns ++ q._columns)) :=
        List.mem_filter.mpr ⟨hx, by simpa using hmem⟩
      exact List.mem_append.mpr (Or.inl (List.mem_append.mpr (Or.inr hin)))
  have h1 : (GraphQuery.columns (q.columns args) args)._additional_columns
      = (q.columns args)._additional_columns := by
    rw [columns_add, hfil, List.append_nil]
  apply GraphQuery.ext <;> first | exact h1 | rfl

/-- Claim C7, counterexample: `c7_q` orders by a field that was never added
as a column — the invalid combination the claim names — yet `all()` raises
nothing: it compiles a statement, submits it to the store, and returns the
store's rows.  No validation and no `BuildError` exist in the code. -/
theorem C7_counterexample :
    c7_q._order_by = [(c7_field, false)] ∧
    ¬ c7_field ∈ c7_q._columns ++ c7_q._additional_columns ∧
    (c7_q.all store0).execs.length = 1 ∧
    (c7_q.all store0).value = store0 ((c7_q.cypher).1) ((c7_q.cypher).2.cypher_params) :=
  ⟨rfl, by decide, rfl, rfl⟩

/-- Claim C7 (amended): terminal operations perform no validation of the
accumulated state: for every builder state, `all`, `count` and `aggregate`
unconditionally compile one statement, submit it to the store, and return
the store's response — no `BuildError` is ever raised. -/
theorem C7_amended (q : GraphQuery) (store : Store) (args : List AggregateSpec) :
    (q.all store).execs.length = 1 ∧
    (q.all store).value = store ((q.cypher).1) ((q.cypher).2.cypher_params) ∧
    (q.count store).execs.length = 1 ∧
    (q.aggregate store args).execs.length = 1 :=
  ⟨rfl, rfl, rfl, rfl⟩

/-- Claim C8: `delete()` sets the internal delete flag and never resets it,
so the post-call state still has the flag and its next compilation is a
deletion statement; `set_type`, `set_token` and `count` restore their
mutated fields (`_set_type`/`_set_type_labels`, `_set_token`/
`_set_token_labels`, `_aggregate`) after executing. -/
theorem C8_delete_flag (q : GraphQuery) (labels : List String)
    (kwargs : List (String × String)) (store : Store) :
    (q.delete store).state._delete = true ∧
    (∃ s, (((q.delete store).state).cypher).1 = "DELETE " ++ s) ∧
    (q.set_type labels kwargs store).state._set_type = [] ∧
    (q.set_type labels kwargs store).state._set_type_labels = [] ∧
    (q.set_token labels kwargs store).state._set_token = [] ∧
    (q.set_token labels kwargs store).state._set_token_labels = [] ∧
    (q.count store).state._aggregate = [] :=
  ⟨rfl, ⟨_, rfl⟩, rfl, rfl, rfl, rfl, rfl⟩

/-- Claim C9, counterexample: on `c9_q`, whose single criterion constrains
`discourse`, `count()` does restore the aggregate list, but it does not
leave all other fields unchanged: the compilation it performs rewrites the
criterion's annotation in place via discourse propagation, so the criterion
list after `count()` differs from the one before. -/
theorem C9_counterexample :
    (c9_q.count store0).state._criterion ≠ c9_q._criterion ∧
    (c9_q.count store0).state._aggregate = [] :=
  ⟨by decide, rfl⟩

/-- Claim C9 (amended): `count()` restores the aggregate-spec list to empty
after executing and leaves every other field unchanged except the criterion
list, which is rewritten by the discourse propagation of the compilation it
performs (an identity when no criterion constrains `discourse`);
`aggregate(specs)` leaves the supplied specs in the accumulator, so a
subsequent compilation still carries them. -/
theorem C9_amended (q : GraphQuery) (store : Store) (args : List AggregateSpec) :
    (q.count store).state
      = { q with _criterion := propagate q._criterion, _aggregate := [] } ∧
    (q.aggregate store args).state
      = { q with _criterion := propagate q._criterion, _aggregate := args } :=
  ⟨rfl, rfl⟩

/-- Claim C10: `filter_contains` and `filter_contained_by` are the same
function as `filter`: each extends the criterion list with exactly the given
elements in order, returns the accumulator, and leaves every other field
unchanged. -/
theorem C10_filter_aliases (q : GraphQuery) (args : List ClauseElement) :
    q.filter_contains args = q.filter args ∧
    q.filter_contained_by args = q.filter args ∧
    (q.filter args)._criterion = q._criterion ++ args ∧
    (q.filter args)._columns = q._columns ∧
    (q.filter args)._additional_columns = q._additional_columns ∧
    (q.filter args)._order_by = q._order_by ∧
    (q.filter args)._group_by = q._group_by ∧
    (q.filter args)._aggregate = q._aggregate ∧
    (q.filter args)._set_type = q._set_type ∧
    (q.filter args)._set_token = q._set_token ∧
    (q.filter args)._set_type_labels = q._set_type_labels ∧
    (q.filter args)._set_token_labels = q._set_token_labels ∧
    (q.filter args)._delete = q._delete ∧
    (q.filter args).to_find = q.to_find ∧
    (q.filter args).is_timed = q.is_timed :=
  ⟨rfl, rfl, rfl, rfl, rfl, rfl, rfl, rfl, rfl, rfl, rfl, rfl, rfl, rfl, rfl⟩

end PolyglotDB
